import Mathlib

/-!
Shallow embedding of `src/index.py` (DASHCADBLOCK): the data loading and
normalization pipeline `load_data` (lines 27-82) and the refresh callback
`line_graph_1` (lines 231-501).

Modelling conventions:
* A pandas cell holding `NaN`/`None` is an `Option` field holding `none`.
* Machine-level dtypes (`category`, `float32`) do not change the values the
  callback reads, so categorical columns stay `Option String`.
* A raised Python exception is an `Except.error` carrying the site that raised.
* Dates are encoded as `y * 10000 + m * 100 + d : Nat`; this encoding is
  strictly monotone in (y, m, d), so `Nat` order agrees with date order.
* The pandas pipeline runs column-at-a-time, so when several rows are bad the
  identity of the first exception differs from a row-at-a-time traversal;
  no property below depends on which of the possible exceptions is raised.
-/

/-- One raw upstream record as decoded from the JSON response body
(the fields read by `index.py`; `none` is a JSON null / missing value). -/
structure RawRecord where
  Natureza : Option String
  Prioridade : Option String
  COB : Option String
  UNIDADE : Option String
  municipio : Option String
  data : Option String
  recursos_empenhados : Option String
  deriving DecidableEq

/-- Whether the first list is a prefix of the second (character scan). -/
def isPrefixOfChars : List Char → List Char → Bool
  | [], _ => true
  | _ :: _, [] => false
  | a :: as, b :: bs => a == b && isPrefixOfChars as bs

/-- Worker for `pySplit`: left-to-right scan emitting the chunk collected in
`acc` each time the separator occurs; fuel-based structural recursion so the
kernel can evaluate it (fuel `≥` input length never runs out). -/
def pySplitAux (sep : List Char) : Nat → List Char → List Char → List (List Char)
  | _, acc, [] => [acc.reverse]
  | 0, acc, _ :: _ => [acc.reverse]
  | Nat.succ fuel, acc, c :: cs =>
    if isPrefixOfChars sep (c :: cs) then
      acc.reverse :: pySplitAux sep fuel [] ((c :: cs).drop sep.length)
    else
      pySplitAux sep fuel (c :: acc) cs

/-- Python `str.split` with an explicit non-empty separator: left-to-right
non-overlapping occurrences; the empty string yields `[""]`. -/
def pySplit (s sep : String) : List String :=
  (pySplitAux sep.data (s.data.length + 1) [] s.data).map String.mk

/-- Python `int(...)`-style digit parsing of a character list. -/
def charsToNat? (l : List Char) : Option Nat :=
  if l ≠ [] ∧ l.all Char.isDigit then
    some (l.foldl (fun n c => n * 10 + (c.toNat - 48)) 0)
  else none

/-- `calcular_total_vtr` (line 22-23): `len(set(linha.split(" / ")))`.
Python `str.split` with an explicit separator returns `[""]` on the empty
string. -/
def calcular_total_vtr (linha : String) : Nat :=
  (pySplit linha " / ").dedup.length

/-- `strptime`-style parsing for the fixed format `%d/%m/%Y` used at line 52.
Returns the encoded date, or `none` when the string does not match the
format (day-in-month subtleties are abstracted to `d ≤ 31`). -/
def parseDDMMYYYY (s : String) : Option Nat :=
  match pySplit s "/" with
  | [ds, ms, ys] =>
    match charsToNat? ds.data, charsToNat? ms.data, charsToNat? ys.data with
    | some d, some m, some y =>
      if 1 ≤ d ∧ d ≤ 31 ∧ 1 ≤ m ∧ m ≤ 12 ∧ ys.data.length = 4 then
        some (y * 10000 + m * 100 + d)
      else none
    | _, _, _ => none
  | _ => none

/-- The fixed COB lookup `cob_legend` (lines 55-62). -/
def cob_legend : List (String × String) :=
  [("1COB", "1ºCOB - RMBH/Divinóplis"),
   ("2COB", "2ºCOB - Uberlândia"),
   ("3COB", "3ºCOB - Juiz de Fora"),
   ("4COB", "4ºCOB - Montes Claros"),
   ("5COB", "5ºCOB - Governador Valadares"),
   ("6COB", "6ºCOB - Varginha")]

/-- The fixed priority lookup `priori_legend` (lines 65-69). -/
def priori_legend : List (String × String) :=
  [("1", "Prioridade 1 - Alta"),
   ("2", "Prioridade 2 - Média"),
   ("3", "Prioridade 3 - Baixa")]

/-- A row of the normalized table built by `load_data` (lines 40-73). -/
structure Record where
  Natureza : Option String
  Prioridade : Option String
  COB : Option String
  UNIDADE : Option String
  municipio : Option String
  data : Option Nat
  COB_nome : Option String
  Prioridade_nome : Option String
  recursos_empenhados : String
  total_vtr : Nat
  deriving DecidableEq

/-- The exceptions `load_data` can raise (it has no try/except of its own). -/
inductive LoadError
  | requestsRaised
  | jsonDecodeRaised
  | keyErrorMissingColumn
  | toDatetimeRaised
  | splitOnNaNRaised
  deriving DecidableEq

/-- Outcome of `requests.get(url)` followed by `response.json()` (lines 38-40):
the request itself can raise, and the body can fail to decode; a non-2xx
status is NOT checked by the code (no `raise_for_status`), so a decodable
body is processed whatever the status. -/
inductive FetchOutcome
  | networkError
  | httpResponse (status : Nat) (body : Option (List RawRecord))
  deriving DecidableEq

/-- `pd.to_datetime(df["data"], format="%d/%m/%Y")` on one cell (line 52):
a missing value passes through as `NaT`; a present string that does not
parse raises (pandas default `errors="raise"`). -/
def parsedData (raw : RawRecord) : Except LoadError (Option Nat) :=
  match raw.data with
  | none => .ok none
  | some s =>
    match parseDDMMYYYY s with
    | none => .error .toDatetimeRaised
    | some d => .ok (some d)

/-- Normalization of one record as performed by lines 52-73: date parsing,
the two `.map` lookups (unmatched keys become `NaN`, i.e. `none`), and the
`total_vtr` column; `df["recursos_empenhados"].apply(calcular_total_vtr)`
raises `AttributeError` on a missing value (`float.split` does not exist). -/
def normalizeRecord (raw : RawRecord) : Except LoadError Record :=
  match parsedData raw with
  | .error e => .error e
  | .ok d =>
    match raw.recursos_empenhados with
    | none => .error .splitOnNaNRaised
    | some recstr =>
      .ok { Natureza := raw.Natureza
            Prioridade := raw.Prioridade
            COB := raw.COB
            UNIDADE := raw.UNIDADE
            municipio := raw.municipio
            data := d
            COB_nome := raw.COB.bind fun c => cob_legend.lookup c
            Prioridade_nome := raw.Prioridade.bind fun c => priori_legend.lookup c
            recursos_empenhados := recstr
            total_vtr := calcular_total_vtr recstr }

/-- Row-at-a-time traversal that stops at the first exception. -/
def mapExcept (f : RawRecord → Except LoadError Record) :
    List RawRecord → Except LoadError (List Record)
  | [] => .ok []
  | a :: as =>
    match f a with
    | .error e => .error e
    | .ok b =>
      match mapExcept f as with
      | .error e => .error e
      | .ok bs => .ok (b :: bs)

/-- `load_data` (lines 27-79) as a function of the fetch outcome.  There is
no exception handling anywhere in the function, so every failure propagates.
`pd.DataFrame([])` has no columns at all, hence `df[col].astype("category")`
at line 45 raises `KeyError` when the body is an empty array. -/
def load_data (fetch : FetchOutcome) : Except LoadError (List Record) :=
  match fetch with
  | .networkError => .error .requestsRaised
  | .httpResponse _ none => .error .jsonDecodeRaised
  | .httpResponse _ (some rows) =>
    if rows.isEmpty then .error .keyErrorMissingColumn
    else mapExcept normalizeRecord rows

/-! ### Grouping and aggregation machinery of the callback (lines 231-501) -/

/-- Boolean linear order on strings (for the sorted group keys that
`groupby(..., sort=True)` produces). -/
def strLeb (a b : String) : Bool := !(decide (b < a))

/-- Insertion into a sorted list. -/
def insertSorted {α : Type} (le : α → α → Bool) (x : α) : List α → List α
  | [] => [x]
  | y :: ys => if le x y then x :: y :: ys else y :: insertSorted le x ys

/-- Insertion sort (pandas sorts group keys by default). -/
def sortBy {α : Type} (le : α → α → Bool) (l : List α) : List α :=
  l.foldr (insertSorted le) []

/-- The distinct non-null values of one column, sorted: rows whose key is
`NaN` are dropped by pandas `groupby`. -/
def groupKeys (rows : List Record) (dim : Record → Option String) : List String :=
  sortBy strLeb (rows.filterMap dim).dedup

/-- `df.groupby(dim).size()`: row count per distinct non-null key. -/
def groupCounts (rows : List Record) (dim : Record → Option String) :
    List (String × Nat) :=
  (groupKeys rows dim).map fun k => (k, (rows.filter fun r => dim r == some k).length)

/-- `df.groupby(dim)[metric].sum()`: metric sum per distinct non-null key. -/
def groupSums (rows : List Record) (dim : Record → Option String)
    (metric : Record → Nat) : List (String × Nat) :=
  (groupKeys rows dim).map fun k =>
    (k, ((rows.filter fun r => dim r == some k).map metric).sum)

/-- Lexicographic boolean order on string pairs. -/
def pairLeb (x y : String × String) : Bool :=
  if decide (x.1 < y.1) then true
  else if decide (y.1 < x.1) then false
  else strLeb x.2 y.2

/-- Distinct value pairs of two columns; a row with `NaN` in either key is
dropped by pandas `groupby`. -/
def groupKeys2 (rows : List Record) (dim1 dim2 : Record → Option String) :
    List (String × String) :=
  sortBy pairLeb ((rows.filterMap fun r =>
    match dim1 r, dim2 r with
    | some a, some b => some (a, b)
    | _, _ => none)).dedup

/-- `df.groupby([dim1, dim2]).size()`: row count per distinct key pair. -/
def groupCounts2 (rows : List Record) (dim1 dim2 : Record → Option String) :
    List ((String × String) × Nat) :=
  (groupKeys2 rows dim1 dim2).map fun k =>
    (k, (rows.filter fun r => dim1 r == some k.1 && dim2 r == some k.2).length)

/-- `series.idxmax()` followed by `.loc[...]`: the first entry carrying the
maximal value, or `none` when the series is empty (where pandas raises
`ValueError: attempt to get argmax of an empty sequence`). -/
def argmaxFirst : List (String × Nat) → Option (String × Nat)
  | [] => none
  | x :: xs => some (xs.foldl (fun best y => if y.2 > best.2 then y else best) x)

/-- Sum of the counts of a grouped series. -/
def sumCounts (l : List (String × Nat)) : Nat := (l.map Prod.snd).sum

/-- `series.mean()` of a grouped count series, as an exact rational. -/
def meanCounts (l : List (String × Nat)) : Rat :=
  (sumCounts l : Rat) / (l.length : Rat)

/-- The guarded leader computation shared by indicators 1 and 4
(lines 283-292 and 308-317): sentinel `("—", 0, 0)` when the grouped frame
is empty or its total is zero, otherwise the argmax row plus the mean. -/
def leaderOrSentinel (g : List (String × Nat)) : String × Nat × Rat :=
  if g ≠ [] ∧ sumCounts g > 0 then
    match argmaxFirst g with
    | some kv => (kv.1, kv.2, meanCounts g)
    | none => ("—", 0, 0)
  else ("—", 0, 0)

/-- `prioridade_alta` (line 281): priority-"1" rows grouped by `COB_nome`. -/
def prioridade_alta (rows : List Record) : List (String × Nat) :=
  groupCounts (rows.filter fun r => r.Prioridade == some "1") (fun r => r.COB_nome)

/-- Indicator 1 (lines 281-292): top COB by priority-1 count, guarded. -/
def indicator1 (rows : List Record) : String × Nat × Rat :=
  leaderOrSentinel (prioridade_alta rows)

/-- `unidade_prioridade_alta` (line 306): priority-"1" rows by `UNIDADE`. -/
def unidade_prioridade_alta (rows : List Record) : List (String × Nat) :=
  groupCounts (rows.filter fun r => r.Prioridade == some "1") (fun r => r.UNIDADE)

/-- Indicator 4 (lines 306-317): top UNIDADE by priority-1 count, guarded. -/
def indicator4 (rows : List Record) : String × Nat × Rat :=
  leaderOrSentinel (unidade_prioridade_alta rows)

/-- `municipios_frequencia` (line 295). -/
def municipios_frequencia (f : List Record) : List (String × Nat) :=
  groupCounts f (fun r => r.municipio)

/-- `unidades_ocorrencias` (line 300). -/
def unidades_ocorrencias (f : List Record) : List (String × Nat) :=
  groupCounts f (fun r => r.UNIDADE)

/-- `recursos_empenhados` grouped sums (line 320). -/
def recursos_por_unidade (f : List Record) : List (String × Nat) :=
  groupSums f (fun r => r.UNIDADE) (fun r => r.total_vtr)

/-- `natureza_freq` (line 417). -/
def natureza_freq (f : List Record) : List (String × Nat) :=
  groupCounts f (fun r => r.Natureza)

/-- `prioridade_por_cob` (line 460), source of breakdown A. -/
def prioridade_por_cob (f : List Record) : List ((String × String) × Nat) :=
  groupCounts2 f (fun r => r.COB_nome) (fun r => r.Prioridade_nome)

/-- `prioridade_total` (line 471), source of breakdown B. -/
def prioridade_total (f : List Record) : List (String × Nat) :=
  groupCounts f (fun r => r.Prioridade_nome)

/-- `cob_por_natureza` (line 480), source of breakdown C. -/
def cob_por_natureza (f : List Record) : List ((String × String) × Nat) :=
  groupCounts2 f (fun r => r.Natureza) (fun r => r.COB_nome)

/-- `total_viaturas` (lines 338-339): union of the split resource tokens of
every filtered row, in first-seen order. -/
def total_viaturas (rows : List Record) : List String :=
  ((rows.map fun r => pySplit r.recursos_empenhados " / ").flatten).dedup

/-- `total_recursos_unicos` (line 342), the value of indicator 8. -/
def total_recursos_unicos (rows : List Record) : Nat :=
  (total_viaturas rows).length

deriving instance DecidableEq for Except

/-! ### Filtering (lines 268-276, the pass whose result the callback uses;
the earlier pass at lines 239-259 is discarded by the fresh copy at 268) -/

/-- The boolean date mask of line 269 on one row, given both bounds:
`(df["data"] >= start) & (df["data"] <= end)`; a `NaT` cell compares as
false on both sides. -/
def dateMask (s e : Nat) (r : Record) : Bool :=
  (match r.data with
   | some d => decide (s ≤ d)
   | none => false) &&
  (match r.data with
   | some d => decide (d ≤ e)
   | none => false)

/-- Lines 268-276: fresh copy of the table, unconditional date mask, then
`COB_nome`-membership filter only when the selection is truthy (non-empty);
`NaN.isin(...)` is false. -/
def filteredTable (df : List Record) (s e : Nat) (cobs : List String) :
    List Record :=
  let m := df.filter (dateMask s e)
  if cobs.isEmpty then m
  else m.filter fun r =>
    match r.COB_nome with
    | some c => cobs.contains c
    | none => false

/-- The exceptions the callback body can raise. -/
inductive PipeError
  | noneDateCompare
  | emptyIdxmax
  deriving DecidableEq

/-- The semantic payload of one returned figure: the values the figure
constructors at lines 350-498 embed (titles/templates are presentation). -/
inductive FigPayload
  | leader (name : String) (value : Nat) (meanRef : Rat)
  | scalar (value : Nat)
  | bar2 (dataRows : List ((String × String) × Nat))
  | pie1 (dataRows : List (String × Nat))
  deriving DecidableEq

/-- The indicator/figure computations of lines 278-501 on the filtered
table.  The four unguarded `idxmax` calls (lines 296, 301, 321, 418) raise
in exactly this order when their grouped frame is empty; figure construction
itself cannot raise, so on success the callback returns the 11 figures
`fig1 .. fig11` in the order of the `Output` declarations (lines 213-223). -/
def compute_figs (f : List Record) : Except PipeError (List FigPayload) :=
  match argmaxFirst (municipios_frequencia f) with
  | none => .error .emptyIdxmax
  | some top_municipio =>
  match argmaxFirst (unidades_ocorrencias f) with
  | none => .error .emptyIdxmax
  | some top_unidade =>
  match argmaxFirst (recursos_por_unidade f) with
  | none => .error .emptyIdxmax
  | some top_recursos =>
  match argmaxFirst (natureza_freq f) with
  | none => .error .emptyIdxmax
  | some top_natureza =>
  .ok [FigPayload.leader (indicator1 f).1 (indicator1 f).2.1 (indicator1 f).2.2,
       FigPayload.leader top_municipio.1 top_municipio.2
         (meanCounts (municipios_frequencia f)),
       FigPayload.leader top_unidade.1 top_unidade.2
         (meanCounts (unidades_ocorrencias f)),
       FigPayload.leader (indicator4 f).1 (indicator4 f).2.1 (indicator4 f).2.2,
       FigPayload.leader top_recursos.1 top_recursos.2
         (meanCounts (recursos_por_unidade f)),
       FigPayload.leader top_natureza.1 top_natureza.2
         (meanCounts (natureza_freq f)),
       FigPayload.scalar f.length,
       FigPayload.scalar (total_recursos_unicos f),
       FigPayload.bar2 (prioridade_por_cob f),
       FigPayload.pie1 (prioridade_total f),
       FigPayload.bar2 (cob_por_natureza f)]

/-- The callback `line_graph_1` (lines 231-501) as a function of the table
produced by `load_data(True)` and of the three filter controls.  When either
date bound is `None`, line 269 compares the datetime column against `None`,
which raises `TypeError` (pandas `invalid_comparison` for ordered
comparisons) before any figure is computed. -/
def line_graph_1 (df : List Record) (start_date end_date : Option Nat)
    (cobs : List String) : Except PipeError (List FigPayload) :=
  match start_date, end_date with
  | some s, some e => compute_figs (filteredTable df s e cobs)
  | _, _ => .error .noneDateCompare

/-! ### Column-level view of lines 246-263 -/

/-- Lines 246-255: if the `COB_nome` column is absent it is recreated from
`COB` (the assignment `df_filtered["COB_nome"] = df_filtered["COB"].map ...`
adds the column; reading a missing `COB` column raises `KeyError`). -/
def recreate_cob_nome (cols : List String) : Option (List String) :=
  if cols.contains "COB_nome" then some cols
  else if cols.contains "COB" then some (cols ++ ["COB_nome"])
  else none

/-- Lines 261-263: whether, after the recreation step, the presence check
`if "COB_nome" not in df_filtered.columns` takes the branch returning the
list of 12 placeholder figures (`none` models the `KeyError` at line 248). -/
def cob_nome_placeholder_taken (cols : List String) : Option Bool :=
  (recreate_cob_nome cols).map fun cols2 => !(cols2.contains "COB_nome")

/-- The columns of the normalized table built by a successful `load_data`
(the raw columns of line 43-49 plus the three derived ones). -/
def loaded_columns : List String :=
  ["Natureza", "Prioridade", "tipo_classificacao", "COB", "UNIDADE",
   "municipio", "latitude", "longitude", "data", "recursos_empenhados",
   "local_fato", "COB_nome", "Prioridade_nome", "total_vtr"]

/-! ### Concrete records used by examples, counterexamples and witnesses -/

/-- A normalized row with the given field values (`COB_nome`,
`Prioridade_nome` and `total_vtr` derived exactly as `load_data` derives
them). -/
def mkRecord (nat pri cob unid muni : Option String) (d : Option Nat)
    (rec : String) : Record :=
  { Natureza := nat
    Prioridade := pri
    COB := cob
    UNIDADE := unid
    municipio := muni
    data := d
    COB_nome := cob.bind fun c => cob_legend.lookup c
    Prioridade_nome := pri.bind fun c => priori_legend.lookup c
    recursos_empenhados := rec
    total_vtr := calcular_total_vtr rec }

/-- Example row dated 2024-01-01 (filter-example row 1). -/
def exJan01 : Record :=
  mkRecord (some "Chuva") (some "1") (some "1COB") (some "U1") (some "BH")
    (some 20240101) "V1"

/-- Example row dated 2024-01-15 (filter-example row 2). -/
def exJan15 : Record :=
  mkRecord (some "Inundacao") (some "2") (some "2COB") (some "U2") (some "Uberlandia")
    (some 20240115) "V2"

/-- Example row dated 2024-02-01 (filter-example row 3). -/
def exFeb01 : Record :=
  mkRecord (some "Chuva") (some "3") (some "3COB") (some "U3") (some "JF")
    (some 20240201) "V3"

/-- Raw record carrying the unknown region code "9COB". -/
def raw9COB : RawRecord :=
  { Natureza := some "Chuva"
    Prioridade := some "1"
    COB := some "9COB"
    UNIDADE := some "U1"
    municipio := some "BH"
    data := some "01/01/2024"
    recursos_empenhados := some "V1" }

/-- Raw record whose `data` string does not parse as `DD/MM/YYYY`. -/
def rawBadDate : RawRecord :=
  { Natureza := some "Chuva"
    Prioridade := some "2"
    COB := some "1COB"
    UNIDADE := some "U1"
    municipio := some "BH"
    data := some "banana"
    recursos_empenhados := some "V1" }

/-- Raw record with a missing `recursos_empenhados` value. -/
def rawNoRec : RawRecord :=
  { Natureza := some "Chuva"
    Prioridade := some "2"
    COB := some "1COB"
    UNIDADE := some "U1"
    municipio := some "BH"
    data := some "01/01/2024"
    recursos_empenhados := none }

/-- A fully populated raw record (used to show a non-2xx status with a
decodable body is still processed). -/
def rawGood : RawRecord :=
  { Natureza := some "Chuva"
    Prioridade := some "1"
    COB := some "1COB"
    UNIDADE := some "U1"
    municipio := some "BH"
    data := some "01/01/2024"
    recursos_empenhados := some "V1 / V2" }

/-- The normalized row `load_data` produces from `rawGood`. -/
def normGood : Record :=
  mkRecord (some "Chuva") (some "1") (some "1COB") (some "U1") (some "BH")
    (some 20240101) "V1 / V2"

/-- The normalized row `load_data` produces from `raw9COB`. -/
def norm9COB : Record :=
  mkRecord (some "Chuva") (some "1") (some "9COB") (some "U1") (some "BH")
    (some 20240101) "V1"

/-- A normalized row whose date is `NaT` (raw value was missing). -/
def rowNaT : Record :=
  mkRecord (some "Chuva") (some "2") (some "1COB") (some "U1") (some "BH")
    none "V1"

/-- Rows holding resource lists "A / B" and "B / C" (indicator-8 example). -/
def exRowsAB_BC : List Record :=
  [mkRecord (some "Chuva") (some "1") (some "1COB") (some "U1") (some "BH")
     (some 20240101) "A / B",
   mkRecord (some "Chuva") (some "2") (some "1COB") (some "U1") (some "BH")
     (some 20240102) "B / C"]


/-! ### Spec-side definitions (refinement targets, stated from the spec
wording, to be compared with the code-side definitions above) -/

/-- Stated from the spec wording of the filter step: keep rows with `data`
in `[start_date, end_date]` inclusive, then keep rows whose `COB_nome` is in
the selected region set when that set is non-empty. -/
def spec_keep_row (s e : Nat) (regs : List String) (r : Record) : Bool :=
  (match r.data with
   | some d => decide (s ≤ d ∧ d ≤ e)
   | none => false) &&
  (regs.isEmpty ||
   (match r.COB_nome with
    | some c => regs.contains c
    | none => false))

/-- Stated from the spec wording of indicator 8: the cardinality of the set
union, over all rows, of each row's split resource tokens. -/
def spec_indicator8 (rows : List Record) : Nat :=
  (rows.foldr
    (fun r acc => (pySplit r.recursos_empenhados " / ").toFinset ∪ acc) ∅).card

/-! ### Helper lemmas -/

theorem length_insertSorted {α : Type} (le : α → α → Bool) (x : α)
    (l : List α) : (insertSorted le x l).length = l.length + 1 := by
  induction l with
  | nil => rfl
  | cons y ys ih =>
    simp only [insertSorted]
    split
    · rfl
    · simp only [List.length_cons, ih]

theorem length_sortBy {α : Type} (le : α → α → Bool) (l : List α) :
    (sortBy le l).length = l.length := by
  induction l with
  | nil => rfl
  | cons x xs ih =>
    show (insertSorted le x (sortBy le xs)).length = xs.length + 1
    rw [length_insertSorted, ih]

theorem groupKeys_ne_nil {rows : List Record} {dim : Record → Option String}
    (h : ∃ r ∈ rows, (dim r).isSome) : groupKeys rows dim ≠ [] := by
  obtain ⟨r, hr, hs⟩ := h
  obtain ⟨k, hk⟩ := Option.isSome_iff_exists.mp hs
  intro hnil
  have h1 : k ∈ (rows.filterMap dim).dedup :=
    List.mem_dedup.mpr (List.mem_filterMap.mpr ⟨r, hr, hk⟩)
  have h2 : (rows.filterMap dim).dedup ≠ [] := List.ne_nil_of_mem h1
  have h3 := length_sortBy strLeb (rows.filterMap dim).dedup
  rw [show sortBy strLeb (rows.filterMap dim).dedup = [] from hnil] at h3
  exact h2 (List.eq_nil_of_length_eq_zero h3.symm)

theorem groupCounts_ne_nil {rows : List Record} {dim : Record → Option String}
    (h : ∃ r ∈ rows, (dim r).isSome) : groupCounts rows dim ≠ [] := by
  intro h0
  exact groupKeys_ne_nil h (List.map_eq_nil_iff.mp h0)

theorem groupSums_ne_nil {rows : List Record} {dim : Record → Option String}
    {metric : Record → Nat} (h : ∃ r ∈ rows, (dim r).isSome) :
    groupSums rows dim metric ≠ [] := by
  intro h0
  exact groupKeys_ne_nil h (List.map_eq_nil_iff.mp h0)

theorem exists_argmax {l : List (String × Nat)} (h : l ≠ []) :
    ∃ x, argmaxFirst l = some x := by
  cases l with
  | nil => exact absurd rfl h
  | cons a as => exact ⟨_, rfl⟩

theorem groupCounts_nil (dim : Record → Option String) :
    groupCounts [] dim = [] := rfl

theorem total_viaturas_toFinset (rows : List Record) :
    (total_viaturas rows).toFinset =
      rows.foldr
        (fun r acc => (pySplit r.recursos_empenhados " / ").toFinset ∪ acc) ∅ := by
  unfold total_viaturas
  rw [show ∀ l : List String, l.dedup.toFinset = l.toFinset from fun l => by
    ext a; simp [List.mem_dedup]]
  induction rows with
  | nil => simp
  | cons r rs ih =>
    simp only [List.map_cons, List.flatten_cons, List.toFinset_append, ih,
      List.foldr_cons]

theorem filteredTable_eq_spec (df : List Record) (s e : Nat)
    (regs : List String) :
    filteredTable df s e regs = df.filter (spec_keep_row s e regs) := by
  unfold filteredTable
  cases hr : regs.isEmpty with
  | true =>
    simp only [if_pos rfl]
    apply List.filter_congr
    intro r _
    unfold dateMask spec_keep_row
    rw [hr]
    cases r.data <;> simp [Bool.decide_and]
  | false =>
    simp only [Bool.false_eq_true, if_neg]
    rw [List.filter_filter]
    apply List.filter_congr
    intro r _
    unfold dateMask spec_keep_row
    rw [hr]
    cases r.data <;> cases hc : r.COB_nome <;>
      simp [Bool.decide_and, Bool.and_comm, Bool.and_assoc]

theorem normalizeRecord_ok_inv {raw : RawRecord} {r : Record}
    (h : normalizeRecord raw = .ok r) :
    r.Natureza = raw.Natureza ∧ r.Prioridade = raw.Prioridade ∧
    r.COB = raw.COB ∧ r.UNIDADE = raw.UNIDADE ∧ r.municipio = raw.municipio ∧
    r.COB_nome = raw.COB.bind (fun c => cob_legend.lookup c) ∧
    r.Prioridade_nome = raw.Prioridade.bind (fun c => priori_legend.lookup c) ∧
    (∃ s, raw.recursos_empenhados = some s ∧ r.recursos_empenhados = s ∧
      r.total_vtr = calcular_total_vtr s) ∧
    parsedData raw = .ok r.data := by
  unfold normalizeRecord at h
  cases hd : parsedData raw with
  | error e =>
    rw [hd] at h
    exact Except.noConfusion h
  | ok d =>
    rw [hd] at h
    cases hrec : raw.recursos_empenhados with
    | none =>
      rw [hrec] at h
      exact Except.noConfusion h
    | some s =>
      rw [hrec] at h
      injection h with h
      subst h
      exact ⟨rfl, rfl, rfl, rfl, rfl, rfl, rfl, ⟨s, rfl, rfl, rfl⟩, rfl⟩

theorem lookup_ne_of_not_mem_values {l : List (String × String)} {v : String}
    (hv : ∀ p ∈ l, p.2 ≠ v) : ∀ c, l.lookup c ≠ some v := by
  intro c
  induction l with
  | nil => simp [List.lookup]
  | cons p ps ih =>
    simp only [List.lookup]
    split
    · intro hcon
      exact hv p (List.mem_cons_self p ps) (by injection hcon)
    · exact ih fun q hq => hv q (List.mem_cons_of_mem p hq)

/-! ### Claims -/

/-- Claim C1 counterexample: on a network failure `load_data` raises
(`requests.get` propagates) and in particular does not return an empty
table. -/
theorem load_data_network_error_propagates :
    load_data .networkError = .error .requestsRaised ∧
    load_data .networkError ≠ .ok [] := by decide

/-- Claim C1 (amended): `load_data` contains no exception handling, so every
fetch failure propagates to the caller: a network error raises, a malformed
body raises at `response.json()`, an empty decoded body raises `KeyError`
(so `load_data` cannot return a zero-row table at all), and a non-2xx status
with a decodable body is not treated as a failure — it is processed as
ordinary data (no `raise_for_status`). -/
theorem load_data_failure_behavior :
    load_data .networkError = .error .requestsRaised ∧
    (∀ st : Nat, load_data (.httpResponse st none) = .error .jsonDecodeRaised) ∧
    (∀ st : Nat,
      load_data (.httpResponse st (some [])) = .error .keyErrorMissingColumn) ∧
    load_data (.httpResponse 500 (some [rawGood])) = .ok [normGood] ∧
    (∀ fetch rows, load_data fetch = .ok rows → rows ≠ []) := by
  refine ⟨rfl, fun st => rfl, fun st => rfl, by decide, ?_⟩
  intro fetch rows h
  cases fetch with
  | networkError => exact Except.noConfusion h
  | httpResponse st body =>
    cases body with
    | none => exact Except.noConfusion h
    | some raws =>
      cases raws with
      | nil => exact Except.noConfusion h
      | cons a as =>
        have h2 : mapExcept normalizeRecord (a :: as) = Except.ok rows := h
        unfold mapExcept at h2
        cases ha : normalizeRecord a with
        | error e =>
          rw [ha] at h2
          exact Except.noConfusion h2
        | ok b =>
          rw [ha] at h2
          cases has : mapExcept normalizeRecord as with
          | error e =>
            rw [has] at h2
            exact Except.noConfusion h2
          | ok bs =>
            rw [has] at h2
            injection h2 with h2
            rw [← h2]
            exact List.cons_ne_nil b bs

/-- Claim C1 witness: the no-empty-table consequence applied at a concrete
successful fetch. -/
theorem load_data_failure_behavior_witness :
    load_data (.httpResponse 500 (some [rawGood])) = .ok [normGood] ∧
    [normGood] ≠ [] :=
  ⟨by decide,
   load_data_failure_behavior.2.2.2.2 (.httpResponse 500 (some [rawGood]))
     [normGood] (by decide)⟩

/-- Claim C3 counterexample: a table filtered down to zero rows makes the
unguarded `idxmax` of indicator 2 raise, aborting the whole computation —
no indicator or breakdown is returned at all. -/
theorem empty_filter_aborts_indicators :
    line_graph_1 [exFeb01] (some 20240101) (some 20240102) []
      = .error .emptyIdxmax := by decide

/-- Claim C3 (amended): only indicators 1 and 4 are guarded; when the
filtered table is empty, the argmax over the empty `municipio` grouping
(indicator 2, line 296) raises `ValueError` and aborts the whole callback
before any indicator or breakdown is produced (the groupings of indicators
3, 5 and 6 are equally unguarded and would raise next). -/
theorem empty_filtered_table_raises_idxmax (df : List Record) (s e : Nat)
    (cobs : List String) (h : filteredTable df s e cobs = []) :
    line_graph_1 df (some s) (some e) cobs = .error .emptyIdxmax := by
  show compute_figs (filteredTable df s e cobs) = _
  rw [h]
  rfl

/-- Claim C3 witness: the amended theorem at a concrete emptying filter. -/
theorem empty_filtered_table_raises_idxmax_witness :
    line_graph_1 [exJan15] (some 20240101) (some 20240102) []
      = .error .emptyIdxmax :=
  empty_filtered_table_raises_idxmax [exJan15] 20240101 20240102 [] (by decide)

/-- Claim C4 counterexample: with the start bound absent the callback does
not apply an open date filter — line 269 compares the datetime column with
`None` unconditionally, raising `TypeError`. -/
theorem missing_date_bound_raises :
    line_graph_1 [exJan01] none (some 20240201) [] = .error .noneDateCompare :=
  rfl

/-- Claim C4 (amended): when both bounds are given, filtering keeps exactly
the rows whose `data` lies in `[start_date, end_date]` inclusive and then,
when the region selection is non-empty, exactly those whose `COB_nome` is in
it (the worked three-date example included); but when either bound is absent
the callback raises a `TypeError` from the unconditional comparison at line
269 instead of applying no date restriction. -/
theorem filter_keeps_exactly_range_and_region :
    (∀ (df : List Record) (s e : Nat) (regs : List String),
      filteredTable df s e regs = df.filter (spec_keep_row s e regs)) ∧
    filteredTable [exJan01, exJan15, exFeb01] 20240101 20240115 []
      = [exJan01, exJan15] ∧
    (∀ (df : List Record) (e : Nat) (cobs : List String),
      line_graph_1 df none (some e) cobs = .error .noneDateCompare) ∧
    (∀ (df : List Record) (s : Nat) (cobs : List String),
      line_graph_1 df (some s) none cobs = .error .noneDateCompare) :=
  ⟨filteredTable_eq_spec, by decide, fun _ _ _ => rfl, fun _ _ _ => rfl⟩

/-- Claim C6 counterexample: on the empty string `calcular_total_vtr`
returns 1 (Python `"".split(" / ") == [""]`), not 0. -/
theorem total_vtr_empty_string_not_zero :
    calcular_total_vtr "" = 1 ∧ calcular_total_vtr "" ≠ 0 := by decide

/-- Claim C6 (amended): `total_vtr` is the number of distinct tokens of the
split on `" / "` (duplicates within one record collapse: "A / A / B" gives
2); but the empty string yields 1 — its single empty token — not 0, and an
absent field makes `load_data` raise (`AttributeError` inside `apply`)
rather than yielding 0. -/
theorem total_vtr_distinct_token_count :
    (∀ s : String, calcular_total_vtr s = (pySplit s " / ").toFinset.card) ∧
    calcular_total_vtr "A / A / B" = 2 ∧
    calcular_total_vtr "" = 1 ∧
    (∀ raw : RawRecord, raw.recursos_empenhados = none →
      ∃ err, normalizeRecord raw = .error err) := by
  refine ⟨?_, by decide, by decide, ?_⟩
  · intro s
    exact (List.card_toFinset _).symm
  · intro raw hrec
    cases hd : parsedData raw with
    | error e =>
      exact ⟨e, by unfold normalizeRecord; simp only [hd]⟩
    | ok d =>
      exact ⟨.splitOnNaNRaised, by unfold normalizeRecord; simp only [hd, hrec]⟩

/-- Claim C6 witness: the absent-field clause at a concrete raw record. -/
theorem total_vtr_distinct_token_count_witness :
    ∃ err, normalizeRecord rawNoRec = .error err :=
  total_vtr_distinct_token_count.2.2.2 rawNoRec rfl

/-- Claim C7 counterexample: a record whose `data` string does not parse as
DD/MM/YYYY makes normalization raise instead of producing a null date. -/
theorem unparseable_date_raises :
    normalizeRecord rawBadDate = .error .toDatetimeRaised := by decide

/-- Claim C7 (amended): parsing uses the fixed DD/MM/YYYY format, but a
present, unparseable date string makes `load_data` raise (`pd.to_datetime`
default `errors="raise"`) rather than produce a null date; a missing raw
value does become `NaT`, and `NaT` rows never match an active date-range
filter. -/
theorem date_parsing_and_nat_exclusion :
    (∀ raw s, raw.data = some s → parseDDMMYYYY s = none →
      normalizeRecord raw = .error .toDatetimeRaised) ∧
    (∀ raw r, raw.data = none → normalizeRecord raw = .ok r →
      r.data = none) ∧
    (∀ (s e : Nat) (r : Record), r.data = none → dateMask s e r = false) ∧
    parseDDMMYYYY "15/01/2024" = some 20240115 ∧
    parseDDMMYYYY "2024-01-15" = none := by
  refine ⟨?_, ?_, ?_, by decide, by decide⟩
  · intro raw s hs hp
    have hd : parsedData raw = .error .toDatetimeRaised := by
      unfold parsedData
      simp only [hs, hp]
    unfold normalizeRecord
    simp only [hd]
  · intro raw r h0 hok
    have hpd := (normalizeRecord_ok_inv hok).2.2.2.2.2.2.2.2
    have h1 : parsedData raw = .ok none := by
      unfold parsedData
      simp only [h0]
    rw [h1] at hpd
    injection hpd with hpd
    exact hpd.symm
  · intro s e r h
    unfold dateMask
    rw [h]
    rfl

/-- Claim C7 witness: the raise clause at `rawBadDate` and the NaT-exclusion
clause at a concrete NaT row. -/
theorem date_parsing_and_nat_exclusion_witness :
    normalizeRecord rawBadDate = .error .toDatetimeRaised ∧
    dateMask 20240101 20241231 rowNaT = false :=
  ⟨date_parsing_and_nat_exclusion.1 rawBadDate "banana" rfl (by decide),
   date_parsing_and_nat_exclusion.2.2.1 20240101 20241231 rowNaT rfl⟩

/-- Claim C9: a filtered table with zero priority-"1" rows makes indicators
1 and 4 return the sentinel triple ("—", 0, 0) — the guarded branches of
lines 284 and 309 — without raising on an empty argmax. -/
theorem no_priority_one_rows_sentinel (rows : List Record)
    (h : ∀ r ∈ rows, r.Prioridade ≠ some "1") :
    indicator1 rows = ("—", 0, 0) ∧ indicator4 rows = ("—", 0, 0) := by
  have hf : (rows.filter fun r => r.Prioridade == some "1") = [] := by
    rw [List.filter_eq_nil_iff]
    intro r hr
    simpa using h r hr
  constructor
  · unfold indicator1 prioridade_alta
    rw [hf]
    rfl
  · unfold indicator4 unidade_prioridade_alta
    rw [hf]
    rfl

/-- Claim C9 witness: the sentinel at a concrete table whose only row has
priority "2". -/
theorem no_priority_one_rows_sentinel_witness :
    indicator1 [exJan15] = ("—", 0, 0) ∧ indicator4 [exJan15] = ("—", 0, 0) :=
  no_priority_one_rows_sentinel [exJan15] (by decide)

/-- Claim C5 counterexample: the unknown region code "9COB" is normalized to
a null `COB_nome` (pandas `.map` yields `NaN` for unmapped keys), not to the
sentinel "Desconhecido". -/
theorem unknown_cob_code_maps_to_null :
    Except.map (fun r => r.COB_nome) (normalizeRecord raw9COB) = .ok none ∧
    Except.map (fun r => r.COB_nome) (normalizeRecord raw9COB)
      ≠ .ok (some "Desconhecido") := by decide

/-- Claim C5 (amended): after normalization `COB_nome` and `Prioridade_nome`
are the results of `.map` over the fixed 6- and 3-entry lookups, so a code
outside the lookup (such as "9COB"), as well as an absent code, maps to null
(`NaN`) — never to "Desconhecido", which appears nowhere in the pipeline. -/
theorem legend_mapping_null_semantics :
    (∀ raw r, normalizeRecord raw = .ok r →
      r.COB_nome = raw.COB.bind (fun c => cob_legend.lookup c) ∧
      r.Prioridade_nome = raw.Prioridade.bind (fun c => priori_legend.lookup c) ∧
      r.COB_nome ≠ some "Desconhecido" ∧
      r.Prioridade_nome ≠ some "Desconhecido") ∧
    cob_legend.lookup "9COB" = none ∧ priori_legend.lookup "9" = none := by
  refine ⟨?_, by decide, by decide⟩
  intro raw r h
  obtain ⟨-, -, -, -, -, hcob, hpri, -, -⟩ := normalizeRecord_ok_inv h
  refine ⟨hcob, hpri, ?_, ?_⟩
  · rw [hcob]
    cases raw.COB with
    | none => simp
    | some c => simpa using lookup_ne_of_not_mem_values (by decide) c
  · rw [hpri]
    cases raw.Prioridade with
    | none => simp
    | some c => simpa using lookup_ne_of_not_mem_values (by decide) c

/-- Claim C5 witness: the amended theorem at the "9COB" record. -/
theorem legend_mapping_null_semantics_witness :
    norm9COB.COB_nome = none ∧ norm9COB.COB_nome ≠ some "Desconhecido" :=
  ⟨by decide,
   ((legend_mapping_null_semantics.1 raw9COB norm9COB (by decide)).2.2.1)⟩

/-- Claim C8: indicator 8 equals the cardinality of the set union, over all
rows of the filtered table, of each row's split resource tokens — a set
union across rows, not a sum of per-row counts; rows "A / B" and "B / C"
yield 3, not 4. -/
theorem indicator8_set_union_semantics :
    (∀ rows : List Record, total_recursos_unicos rows = spec_indicator8 rows) ∧
    total_recursos_unicos exRowsAB_BC = 3 := by
  refine ⟨?_, by decide⟩
  intro rows
  unfold total_recursos_unicos spec_indicator8
  rw [← total_viaturas_toFinset, List.card_toFinset]
  unfold total_viaturas
  rw [List.dedup_idem]

/-- Claim C10 counterexample: an invocation that passes the (always false)
line-262 presence check still does not compute the 11 real figures when the
filtered table is empty: it raises at the first unguarded argmax. -/
theorem check_false_but_figures_not_guaranteed :
    cob_nome_placeholder_taken loaded_columns = some false ∧
    line_graph_1 [exJan01] (some 20240501) (some 20240502) []
      = .error .emptyIdxmax := by decide

/-- Claim C10 (amended): whenever the table has a `COB` column the
recreation step of lines 246-255 guarantees a `COB_nome` column, so the
line-262 check is always false and the 12-placeholder return never executes;
an invocation that reaches that point proceeds past the check, and computes
the 11 real figures only when the filtered table is non-empty (an empty one
raises downstream at the first unguarded argmax). -/
theorem cob_nome_placeholder_branch_unreachable (cols : List String)
    (h : cols.contains "COB" = true) :
    cob_nome_placeholder_taken cols = some false := by
  unfold cob_nome_placeholder_taken recreate_cob_nome
  cases hc : cols.contains "COB_nome" with
  | true => simp [hc, List.mem_of_elem_eq_true hc]
  | false => simp [hc, List.mem_of_elem_eq_true h]

/-- Claim C10 witness: the amended theorem at a one-column table. -/
theorem cob_nome_placeholder_branch_unreachable_witness :
    cob_nome_placeholder_taken ["COB"] = some false :=
  cob_nome_placeholder_branch_unreachable ["COB"] (by decide)

/-- Claim C2 counterexample: a filter state that empties the table makes the
callback raise at the first unguarded argmax — the rendering layer receives
an exception, not 11 figure payloads (and the dead error branch at line 263
would return 12, not 11, placeholders). -/
theorem line_graph_1_not_always_eleven :
    line_graph_1 [exFeb01] (some 20240105) (some 20240106) []
      = .error .emptyIdxmax := by decide

/-- Claim C2 (amended): whenever both date bounds are given and the filtered
table carries at least one non-null `municipio`, `UNIDADE` and `Natureza`
key, the callback returns exactly 11 payloads in the fixed order indicators
1-8 followed by breakdowns A (COB x Prioridade), B (Prioridade) and
C (Natureza x COB); with an empty filtered table (or one whose grouping keys
are all null) the callback instead raises, and its unreachable error branch
would return 12 placeholders, so the claim's universal arity guarantee does
not hold. -/
theorem line_graph_1_eleven_figures (df : List Record) (s e : Nat)
    (cobs : List String)
    (hm : ∃ r ∈ filteredTable df s e cobs, (r.municipio).isSome)
    (hu : ∃ r ∈ filteredTable df s e cobs, (r.UNIDADE).isSome)
    (hn : ∃ r ∈ filteredTable df s e cobs, (r.Natureza).isSome) :
    ∃ tm tu tv tn : String × Nat,
      line_graph_1 df (some s) (some e) cobs = .ok
        [FigPayload.leader (indicator1 (filteredTable df s e cobs)).1
           (indicator1 (filteredTable df s e cobs)).2.1
           (indicator1 (filteredTable df s e cobs)).2.2,
         FigPayload.leader tm.1 tm.2
           (meanCounts (municipios_frequencia (filteredTable df s e cobs))),
         FigPayload.leader tu.1 tu.2
           (meanCounts (unidades_ocorrencias (filteredTable df s e cobs))),
         FigPayload.leader (indicator4 (filteredTable df s e cobs)).1
           (indicator4 (filteredTable df s e cobs)).2.1
           (indicator4 (filteredTable df s e cobs)).2.2,
         FigPayload.leader tv.1 tv.2
           (meanCounts (recursos_por_unidade (filteredTable df s e cobs))),
         FigPayload.leader tn.1 tn.2
           (meanCounts (natureza_freq (filteredTable df s e cobs))),
         FigPayload.scalar (filteredTable df s e cobs).length,
         FigPayload.scalar (total_recursos_unicos (filteredTable df s e cobs)),
         FigPayload.bar2 (prioridade_por_cob (filteredTable df s e cobs)),
         FigPayload.pie1 (prioridade_total (filteredTable df s e cobs)),
         FigPayload.bar2 (cob_por_natureza (filteredTable df s e cobs))] := by
  obtain ⟨tm, htm⟩ :=
    exists_argmax
      (groupCounts_ne_nil hm :
        municipios_frequencia (filteredTable df s e cobs) ≠ [])
  obtain ⟨tu, htu⟩ :=
    exists_argmax
      (groupCounts_ne_nil hu :
        unidades_ocorrencias (filteredTable df s e cobs) ≠ [])
  obtain ⟨tv, htv⟩ :=
    exists_argmax
      (groupSums_ne_nil hu :
        recursos_por_unidade (filteredTable df s e cobs) ≠ [])
  obtain ⟨tn, htn⟩ :=
    exists_argmax
      (groupCounts_ne_nil hn :
        natureza_freq (filteredTable df s e cobs) ≠ [])
  refine ⟨tm, tu, tv, tn, ?_⟩
  show compute_figs (filteredTable df s e cobs) = _
  unfold compute_figs municipios_frequencia unidades_ocorrencias
    recursos_por_unidade natureza_freq
  simp only [htm, htu, htv, htn]

/-- Claim C2 witness: a concrete invocation returning 11 payloads. -/
theorem line_graph_1_eleven_figures_witness :
    ∃ figs, line_graph_1 [exJan01] (some 20240101) (some 20240115) []
      = .ok figs ∧ figs.length = 11 := by
  obtain ⟨tm, tu, tv, tn, h⟩ :=
    line_graph_1_eleven_figures [exJan01] 20240101 20240115 []
      (by decide) (by decide) (by decide)
  exact ⟨_, h, rfl⟩
